import Mathlib

/-!
Verification development for the Multishare Operations Manager of the
gcp-filestore-csi-driver repository.  The definitions below are a shallow
embedding of `pkg/csi_driver/multishare_ops_manager.go`: pure Go helpers
become Lean functions, cloud calls become explicitly injected results, and
Go's `(value, error)` returns become `Except`.  Helper code of the
repository that lives outside the provided source (the `util` and
`cloud_provider/file` packages) is modelled from the specification; each
such definition is marked `Modelled from the spec:` in its doc comment.
-/

namespace FilestoreMultishare

/-- Operation kinds, embedding `util.OperationType`. -/
inductive OperationType where
  | instanceCreate
  | instanceUpdate
  | instanceDelete
  | shareCreate
  | shareUpdate
  | shareDelete
  | unknownOp
deriving DecidableEq

/-- Modelled from the spec: a printable name for an operation kind, standing in
for `util.OperationType.String()` (the exact strings live in the `util`
package, outside the provided source; only error-code behaviour, not message
text, is claimed about them). -/
def OperationType.str : OperationType → String
  | .instanceCreate => "instance_create"
  | .instanceUpdate => "instance_update"
  | .instanceDelete => "instance_delete"
  | .shareCreate => "share_create"
  | .shareUpdate => "share_update"
  | .shareDelete => "share_delete"
  | .unknownOp => "unknown"

/-- Caller-visible grpc status codes used by the manager. -/
inductive Code where
  | invalidArgument
  | aborted
  | internal
  | unknownCode
deriving DecidableEq

/-- Embedding of Go's `error` values as the manager observes them: either a
grpc `status.Error` with a code, or a raw cloud-client error.  The `notFound`
flag on a cloud error models `file.IsNotFoundErr` (a googleapi 404). -/
inductive GoError where
  | status (code : Code) (msg : String)
  | cloud (notFound : Bool) (msg : String)
deriving DecidableEq

/-- Message text of an error, standing in for Go's `err.Error()`. -/
def GoError.msg : GoError → String
  | .status _ m => m
  | .cloud _ m => m

/-- Modelled from the spec: `file.IsNotFoundErr` (outside the provided
source) — true exactly for a cloud-client 404. -/
def isNotFoundErr : GoError → Bool
  | .cloud nf _ => nf
  | .status _ _ => false

/-- Status code carried by an error result, if any (`none` for `.ok`). -/
def resultCode {α : Type} : Except GoError α → Option Code
  | .error (.status c _) => some c
  | .error (.cloud _ _) => some .unknownCode
  | .ok _ => none

/-- Embedding of `file.MultishareInstance` (the fields the manager reads). -/
structure MultishareInstance where
  project : String := ""
  location : String := ""
  name : String := ""
  tier : String := ""
  protocol : String := ""
  networkName : String := ""
  connectMode : String := ""
  reservedIpRange : String := ""
  ip : String := ""
  capacityBytes : Int := 0
  capacityStepSizeGb : Int := 0
  maxShareCount : Nat := 0
  kmsKeyName : String := ""
  labels : List (String × String) := []
  state : String := ""
deriving DecidableEq

/-- Embedding of `file.Share` (the fields the manager reads).  A Go nil
parent pointer is `none`. -/
structure Share where
  name : String := ""
  parent : Option MultishareInstance := none
  capacityBytes : Int := 0
deriving DecidableEq

/-- Embedding of `OpInfo`: one in-flight cloud operation in an op snapshot. -/
structure OpInfo where
  id : String := ""
  type : OperationType := .unknownOp
  target : String := ""
deriving DecidableEq

/-- Embedding of `Workflow`.  The Go field `instance` is spelled `inst`
because `instance` is a Lean keyword. -/
structure Workflow where
  inst : Option MultishareInstance := none
  share : Option Share := none
  opType : OperationType := .unknownOp
  opName : String := ""
deriving DecidableEq

/-- Auxiliary substring search on character lists (needle, then haystack). -/
def containsAux (needle : List Char) : List Char → Bool
  | [] => needle.isEmpty
  | c :: t => needle.isPrefixOf (c :: t) || containsAux needle t

/-- Embedding of Go's `strings.Contains s sub`. -/
def goContains (s sub : String) : Bool :=
  containsAux sub.toList s.toList

/-- Specification-side predicate: `s` begins with `pre` (Go's
`strings.HasPrefix s pre`), used to state the spec's interlock wording. -/
def beginsWith (s pre : String) : Bool :=
  pre.toList.isPrefixOf s.toList

/-- Modelled from the spec: `strings.EqualFold` (simple case folding). -/
def equalFold (a b : String) : Bool :=
  a.toLower == b.toLower

/-- Lookup in a Go `map[string]string`, embedded as an association list. -/
def lookupLabel (labels : List (String × String)) (k : String) : Option String :=
  (labels.find? (fun p => p.1 == k)).map (fun p => p.2)

/-- Modelled from the spec: `util.GbToBytes` — GiB converted to bytes. -/
def gbToBytes (gb : Int) : Int := gb * 1073741824

/-- Modelled from the spec: `util.MinMultishareInstanceSizeBytes` = 1 TiB
(scenario “Shrink-to-min” fixes Min at 1 TiB). -/
def minMultishareInstanceSizeBytes : Int := 1024 * 1073741824

/-- Modelled from the spec: `util.MaxMultishareInstanceSizeBytes` — the hard
upper instance bound, 10 TiB in the cloud contract. -/
def maxMultishareInstanceSizeBytes : Int := 10240 * 1073741824

/-- Modelled from the spec: `util.MaxSharesPerInstance`, the fixed fallback
share cap (10). -/
def maxSharesPerInstance : Nat := 10

/-- Modelled from the spec: `util.AlignBytes` — ceiling alignment of `bytes`
to a multiple of `stepBytes` (meaningful for `0 < stepBytes`). -/
def alignBytes (bytes stepBytes : Int) : Int :=
  ((bytes + stepBytes - 1) / stepBytes) * stepBytes

/-- Modelled from the spec: `file.GenerateMultishareInstanceURI` — the
instance URI `projects/{project}/locations/{location}/instances/{name}`;
an instance handle with an empty component is unparseable and errors. -/
def generateMultishareInstanceURI (i : MultishareInstance) : Except GoError String :=
  if i.project = "" ∨ i.location = "" ∨ i.name = "" then
    .error (.cloud false "invalid instance handle")
  else
    .ok ("projects/" ++ i.project ++ "/locations/" ++ i.location ++
      "/instances/" ++ i.name)

/-- Modelled from the spec: `file.GenerateShareURI` — the share URI
`projects/{p}/locations/{l}/instances/{parent-name}/shares/{name}`; errors
when the parent reference is missing or a component is empty. -/
def generateShareURI (s : Share) : Except GoError String :=
  match s.parent with
  | none => .error (.cloud false "invalid share handle")
  | some p =>
    if p.project = "" ∨ p.location = "" ∨ p.name = "" ∨ s.name = "" then
      .error (.cloud false "invalid share handle")
    else
      .ok ("projects/" ++ p.project ++ "/locations/" ++ p.location ++
        "/instances/" ++ p.name ++ "/shares/" ++ s.name)

/-- Embedding of `containsOpWithShareName`: first op of the given kind whose
target contains the share name as a substring. -/
def containsOpWithShareName (shareName : String) (opType : OperationType)
    (ops : List OpInfo) : Option OpInfo :=
  ops.find? (fun op => op.type == opType && goContains op.target shareName)

/-- Embedding of `containsOpWithShareTarget`: first op of the given kind whose
target equals the share's URI. -/
def containsOpWithShareTarget (s : Share) (opType : OperationType)
    (ops : List OpInfo) : Except GoError (Option OpInfo) :=
  match generateShareURI s with
  | .error e => .error (.status .internal
      ("failed to parse share handle, err: " ++ e.msg))
  | .ok shareUri =>
    .ok (ops.find? (fun op => op.type == opType && op.target == shareUri))

/-- Embedding of `containsOpWithInstanceTargetPrefix`: first op whose target
equals the instance URI or contains `instanceUri ++ "/"` as a substring
(Go `strings.Contains`). -/
def containsOpWithInstanceTargetPrefix (i : MultishareInstance)
    (ops : List OpInfo) : Except GoError (Option OpInfo) :=
  match generateMultishareInstanceURI i with
  | .error e => .error e
  | .ok instanceUri =>
    .ok (ops.find? (fun op =>
      op.target == instanceUri || goContains op.target (instanceUri ++ "/")))

/-- Embedding of `verifyNoRunningInstanceOps`: fails `Aborted` when some op's
target equals the instance URI (exact match only). -/
def verifyNoRunningInstanceOps (i : MultishareInstance) (ops : List OpInfo) :
    Except GoError Unit :=
  match generateMultishareInstanceURI i with
  | .error e => .error (.status .internal
      ("failed to parse instance handle, err: " ++ e.msg))
  | .ok instanceUri =>
    match ops.find? (fun op => op.target == instanceUri) with
    | some op => .error (.status .aborted
        ("Found running op " ++ op.id ++ " type " ++ op.type.str ++
          " for target resource " ++ op.target))
    | none => .ok ()

/-- Embedding of `verifyNoRunningShareOps`: fails `Aborted` when some op's
target equals the share URI. -/
def verifyNoRunningShareOps (s : Share) (ops : List OpInfo) :
    Except GoError Unit :=
  match generateShareURI s with
  | .error e => .error (.status .internal
      ("failed to parse share handle, err: " ++ e.msg))
  | .ok shareUri =>
    match ops.find? (fun op => op.target == shareUri) with
    | some op => .error (.status .aborted
        ("Found running op " ++ op.id ++ " type " ++ op.type.str ++
          " for target resource " ++ op.target))
    | none => .ok ()

/-- Embedding of `verifyNoRunningInstanceOrShareOpsForInstance`: fails
`Aborted` when some op's target equals the instance URI or contains
`instanceUri ++ "/"` as a substring. -/
def verifyNoRunningInstanceOrShareOpsForInstance (i : MultishareInstance)
    (ops : List OpInfo) : Except GoError Unit :=
  match generateMultishareInstanceURI i with
  | .error e => .error (.status .internal
      ("failed to parse instance handle, err: " ++ e.msg))
  | .ok instanceUri =>
    match ops.find? (fun op =>
        op.target == instanceUri || goContains op.target (instanceUri ++ "/")) with
    | some op => .error (.status .aborted
        ("Found running op " ++ op.id ++ ", type " ++ op.type.str ++
          ", for target resource " ++ op.target))
    | none => .ok ()

/-- Results of the cloud `Start*Op` calls, injected into the embedding; on
success a call yields the started LRO's name. -/
structure StartOps where
  startCreateMultishareInstanceOp : Except GoError String := .ok ""
  startResizeMultishareInstanceOp : Except GoError String := .ok ""
  startDeleteMultishareInstanceOp : Except GoError String := .ok ""
  startCreateShareOp : Except GoError String := .ok ""
  startResizeShareOp : Except GoError String := .ok ""
  startDeleteShareOp : Except GoError String := .ok ""

/-- Embedding of `startInstanceWorkflow`.  The second component records
whether a cloud `Start*Op` call was dispatched. -/
def startInstanceWorkflow (w : Workflow) (ops : List OpInfo)
    (cloud : StartOps) : Except GoError Workflow × Bool :=
  match w.inst with
  | none => (.error (.status .internal "instance not found in workflow object"), false)
  | some i =>
    match verifyNoRunningInstanceOrShareOpsForInstance i ops with
    | .error e => (.error e, false)
    | .ok _ =>
      match w.opType with
      | .instanceCreate =>
        ((cloud.startCreateMultishareInstanceOp).map
          (fun opName => { w with opName := opName }), true)
      | .instanceUpdate =>
        ((cloud.startResizeMultishareInstanceOp).map
          (fun opName => { w with opName := opName }), true)
      | .instanceDelete =>
        ((cloud.startDeleteMultishareInstanceOp).map
          (fun opName => { w with opName := opName }), true)
      | t => (.error (.status .internal
          ("for instance workflow, unknown op type " ++ t.str)), false)

/-- Embedding of `startShareWorkflow`.  The second component records whether
a cloud `Start*Op` call was dispatched. -/
def startShareWorkflow (w : Workflow) (ops : List OpInfo)
    (cloud : StartOps) : Except GoError Workflow × Bool :=
  match w.share with
  | none => (.error (.status .internal "share not found in workflow object"), false)
  | some s =>
    match s.parent with
    | none => (.error (.status .internal "share parent not found in workflow object"), false)
    | some p =>
      match verifyNoRunningInstanceOps p ops with
      | .error e => (.error e, false)
      | .ok _ =>
        match verifyNoRunningShareOps s ops with
        | .error e => (.error e, false)
        | .ok _ =>
          match w.opType with
          | .shareCreate =>
            ((cloud.startCreateShareOp).map
              (fun opName => { w with opName := opName }), true)
          | .shareUpdate =>
            ((cloud.startResizeShareOp).map
              (fun opName => { w with opName := opName }), true)
          | .shareDelete =>
            ((cloud.startDeleteShareOp).map
              (fun opName => { w with opName := opName }), true)
          | t => (.error (.status .internal
              ("for share workflow, unknown op type " ++ t.str)), false)

/-- Sum of the capacity of a list of shares, as accumulated by the Go loops. -/
def sumShareBytes (shares : List Share) : Int :=
  shares.foldl (fun acc s => acc + s.capacityBytes) 0

/-- Embedding of `instanceNeedsExpand`.  The result of the cloud
`ListShares` call on the share's parent is injected as `listSharesRes`. -/
def instanceNeedsExpand (share : Share)
    (listSharesRes : Except GoError (List Share)) (capacityNeeded : Int) :
    Except GoError (Bool × Int) :=
  match share.parent with
  | none => .error (.cloud false ("parent missing from share " ++ share.name))
  | some parent =>
    match listSharesRes with
    | .error e => .error e
    | .ok shares =>
      let sum := sumShareBytes shares
      let remainingBytes := parent.capacityBytes - sum
      if remainingBytes < capacityNeeded then
        let alignB := alignBytes (capacityNeeded + sum)
          (gbToBytes parent.capacityStepSizeGb)
        .ok (true, min alignB maxMultishareInstanceSizeBytes)
      else
        .ok (false, 0)

/-- Embedding of `checkAndStartShareDeleteWorkflow`.  The op-snapshot listing
is injected as `listOpsRes`; the second component records whether a cloud
`Start*Op` call was dispatched. -/
def checkAndStartShareDeleteWorkflow (share : Share)
    (listOpsRes : Except GoError (List OpInfo)) (cloud : StartOps) :
    Except GoError (Option Workflow) × Bool :=
  match listOpsRes with
  | .error e => (.error e, false)
  | .ok ops =>
    match containsOpWithShareTarget share .shareDelete ops with
    | .error e => (.error e, false)
    | .ok (some deleteShareOp) =>
      (.ok (some { share := some share,
                   opName := deleteShareOp.id,
                   opType := deleteShareOp.type }), false)
    | .ok none =>
      let r := startShareWorkflow { share := some share, opType := .shareDelete } ops cloud
      (r.1.map some, r.2)

/-- Embedding of `checkAndStartInstanceDeleteOrShrinkWorkflow`.  The results
of the cloud listing/get calls are injected; the second component records
whether a cloud `Start*Op` call was dispatched. -/
def checkAndStartInstanceDeleteOrShrinkWorkflow (i : MultishareInstance)
    (listOpsRes : Except GoError (List OpInfo))
    (getInstanceRes : Except GoError MultishareInstance)
    (listSharesRes : Except GoError (List Share))
    (cloud : StartOps) : Except GoError (Option Workflow) × Bool :=
  match listOpsRes with
  | .error e => (.error e, false)
  | .ok ops =>
  match verifyNoRunningInstanceOrShareOpsForInstance i ops with
  | .error e => (.error e, false)
  | .ok _ =>
  match getInstanceRes with
  | .error e => (if isNotFoundErr e then .ok none else .error e, false)
  | .ok inst =>
  match listSharesRes with
  | .error e => (if isNotFoundErr e then .ok none else .error e, false)
  | .ok shares =>
  if shares.isEmpty then
    let r := startInstanceWorkflow { inst := some inst, opType := .instanceDelete } ops cloud
    match r.1 with
    | .error e => (if isNotFoundErr e then .ok none else .error e, r.2)
    | .ok w => (.ok (some w), r.2)
  else
    let totalShareCap := sumShareBytes shares
    if totalShareCap < inst.capacityBytes ∧
        minMultishareInstanceSizeBytes < inst.capacityBytes then
      let target0 := alignBytes totalShareCap (gbToBytes inst.capacityStepSizeGb)
      let targetShrinkSizeBytes := max target0 minMultishareInstanceSizeBytes
      if inst.capacityBytes = targetShrinkSizeBytes then
        (.ok none, false)
      else
        let r := startInstanceWorkflow
          { inst := some { inst with capacityBytes := targetShrinkSizeBytes },
            opType := .instanceUpdate } ops cloud
        match r.1 with
        | .error e => (if isNotFoundErr e then .ok none else .error e, r.2)
        | .ok w => (.ok (some w), r.2)
    else
      (.ok none, false)

/-- Embedding of the zone loop inside `listRegions`: map each zone to its
region, skipping regions already collected (the Go `seen` set), erroring on
the first malformed zone. -/
def listRegionsLoop (regionOf : String → Except GoError String) :
    List String → List String → Except GoError (List String)
  | [], acc => .ok acc
  | z :: zs, acc =>
    match regionOf z with
    | .error e => .error e
    | .ok region =>
      if region ∈ acc then listRegionsLoop regionOf zs acc
      else listRegionsLoop regionOf zs (acc ++ [region])

/-- Embedding of `listRegions`.  `util.GetRegionFromZone` (outside the
provided source) is abstracted as the injected `regionOf`;
`listZonesFromTopology` is modelled from the spec as the zones carried by the
optional accessibility requirement. -/
def listRegions (regionOf : String → Except GoError String)
    (driverZone : String) (top : Option (List String)) :
    Except GoError (List String) :=
  match regionOf driverZone with
  | .error e => .error e
  | .ok clusterRegion =>
    match top with
    | none => .ok [clusterRegion]
    | some zones =>
      match listRegionsLoop regionOf zones [] with
      | .error e => .error e
      | .ok allowedRegions =>
        if allowedRegions.isEmpty then .ok [clusterRegion]
        else .ok allowedRegions

/-- Deduplication keeping the first occurrence of each element, used as the
specification-side description of the `listRegions` loop. -/
def dedupKeepFirst : List String → List String
  | [] => []
  | x :: xs => x :: dedupKeepFirst (xs.filter (fun y => ¬(y = x)))
termination_by l => l.length
decreasing_by
  simp only [List.length_cons]
  exact Nat.lt_succ_of_le (List.length_filter_le _ _)

/-- Modelled from the spec: the storage-class-id label key (§3). -/
def paramMultishareInstanceScLabelKey : String := "storage_gke_io_storage-class-id"

/-- Modelled from the spec: the cluster-location label key (§3). -/
def tagKeyClusterLocation : String := "gke_cluster_location"

/-- Modelled from the spec: the cluster-name label key (§3). -/
def tagKeyClusterName : String := "gke_cluster_name"

/-- Modelled from the spec: the `reserved-ipv4-cidr` request parameter (§6). -/
def paramReservedIPV4CIDR : String := "reserved-ipv4-cidr"

/-- Modelled from the spec: the `reserved-ip-range` request parameter (§6). -/
def paramReservedIPRange : String := "reserved-ip-range"

/-- Modelled from the spec: the `PRIVATE_SERVICE_ACCESS` connect mode. -/
def privateServiceAccess : String := "PRIVATE_SERVICE_ACCESS"

/-- Label keys that must match between source and target, as in
`isMatchedInstance`. -/
def matchLabelKeys : List String :=
  [paramMultishareInstanceScLabelKey, tagKeyClusterLocation, tagKeyClusterName]

/-- Embedding of the label loop of `isMatchedInstance`: a key missing on the
target is a hard error; a value mismatch is a non-match (missing source
values read as `""`, as for a Go map). -/
def checkMatchLabels (source target : List (String × String)) :
    List String → Except GoError Bool
  | [] => .ok true
  | k :: ks =>
    match lookupLabel target k with
    | none => .error (.cloud false ("label " ++ k ++ " missing in target instance"))
    | some _ =>
      if (lookupLabel source k).getD "" == (lookupLabel target k).getD "" then
        checkMatchLabels source target ks
      else
        .ok false

/-- Tail of `isMatchedInstance` after the label and CIDR checks: protocol
equality, then case-insensitive equality of location, tier, network name,
connect mode and KMS key. -/
def isMatchedInstanceTail (source target : MultishareInstance) : Bool :=
  if source.protocol != target.protocol then false
  else
    equalFold source.location target.location &&
    equalFold source.tier target.tier &&
    equalFold source.networkName target.networkName &&
    equalFold source.connectMode target.connectMode &&
    equalFold source.kmsKeyName target.kmsKeyName

/-- Embedding of `isMatchedInstance`.  `IsIpWithinRange` (outside the
provided source) is abstracted as the injected `ipWithin`. -/
def isMatchedInstance (source target : MultishareInstance)
    (params : List (String × String))
    (ipWithin : String → String → Except GoError Bool) : Except GoError Bool :=
  match checkMatchLabels source.labels target.labels matchLabelKeys with
  | .error e => .error e
  | .ok false => .ok false
  | .ok true =>
    match lookupLabel params paramReservedIPV4CIDR with
    | some instanceCIDR =>
      match ipWithin source.ip instanceCIDR with
      | .error e => .error e
      | .ok false => .ok false
      | .ok true => .ok (isMatchedInstanceTail source target)
    | none => .ok (isMatchedInstanceTail source target)

/-- Injected cloud results and driver configuration used by the eligibility
check. -/
structure ElgEnv where
  listInstancesRegion : String → Except GoError (List MultishareInstance) :=
    fun _ => .ok []
  listSharesOfInstance : MultishareInstance → Except GoError (List Share) :=
    fun _ => .ok []
  ipWithin : String → String → Except GoError Bool := fun _ _ => .ok true
  hasMsController : Bool := true
  featureMaxSharePerInstance : Bool := false

/-- Embedding of the region loop of `listMatchedInstances`: concatenate the
instance listings of every region, failing on the first error. -/
def collectRegionalInstances
    (listInstancesRegion : String → Except GoError (List MultishareInstance)) :
    List String → Except GoError (List MultishareInstance)
  | [] => .ok []
  | r :: rs =>
    match listInstancesRegion r with
    | .error e => .error e
    | .ok here =>
      match collectRegionalInstances listInstancesRegion rs with
      | .error e => .error e
      | .ok rest => .ok (here ++ rest)

/-- Embedding of the filter loop of `listMatchedInstances`. -/
def filterMatched (target : MultishareInstance) (params : List (String × String))
    (ipWithin : String → String → Except GoError Bool) :
    List MultishareInstance → Except GoError (List MultishareInstance)
  | [] => .ok []
  | i :: rest =>
    match isMatchedInstance i target params ipWithin with
    | .error e => .error e
    | .ok matched =>
      match filterMatched target params ipWithin rest with
      | .error e => .error e
      | .ok tail => .ok (if matched then i :: tail else tail)

/-- Embedding of the classification loop of `runEligibleInstanceCheck`,
partitioning matched instances into ready-eligible and non-ready lists. -/
def elgClassify (env : ElgEnv) (ops : List OpInfo) :
    List MultishareInstance →
    List MultishareInstance × List MultishareInstance →
    Except GoError (List MultishareInstance × List MultishareInstance)
  | [], acc => .ok acc
  | i :: rest, (ready, nonReady) =>
    if i.state == "CREATING" || i.state == "REPAIRING" then
      elgClassify env ops rest (ready, nonReady ++ [i])
    else if i.state != "READY" then
      elgClassify env ops rest (ready, nonReady)
    else
      match containsOpWithInstanceTargetPrefix i ops with
      | .error e => .error e
      | .ok (some _) => elgClassify env ops rest (ready, nonReady ++ [i])
      | .ok none =>
        match env.listSharesOfInstance i with
        | .error e => .error e
        | .ok shares =>
          let maxShareCount :=
            if env.hasMsController && env.featureMaxSharePerInstance then
              i.maxShareCount
            else maxSharesPerInstance
          if shares.length ≥ maxShareCount then
            elgClassify env ops rest (ready, nonReady)
          else
            elgClassify env ops rest (ready ++ [i], nonReady)

/-- Embedding of the diagnostic loop of `runEligibleInstanceCheck` building
the all-busy error message. -/
def busyMessage (ops : List OpInfo) :
    List MultishareInstance → String → Except GoError String
  | [], acc => .ok acc
  | i :: rest, acc =>
    match containsOpWithInstanceTargetPrefix i ops with
    | .error e => .error e
    | .ok (some op) =>
      busyMessage ops rest
        (acc ++ " Instance " ++ i.name ++ " busy with operation type " ++
          op.type.str ++ "\n")
    | .ok none =>
      busyMessage ops rest
        (acc ++ " Instance " ++ i.name ++ " is in state " ++ i.state ++ "\n")

/-- Embedding of `runEligibleInstanceCheck`: list and match instances over
the allowed regions, classify them, and either return the ready-eligible
list or fail `Aborted` when everything eligible is busy. -/
def runEligibleInstanceCheck (env : ElgEnv) (params : List (String × String))
    (ops : List OpInfo) (target : MultishareInstance) (regions : List String) :
    Except GoError (List MultishareInstance) :=
  match collectRegionalInstances env.listInstancesRegion regions with
  | .error e => .error e
  | .ok allInstances =>
  match filterMatched target params env.ipWithin allInstances with
  | .error e => .error e
  | .ok matched =>
  match elgClassify env ops matched ([], []) with
  | .error e => .error e
  | .ok (ready, nonReady) =>
    if ready.isEmpty && !nonReady.isEmpty then
      match busyMessage ops nonReady "All eligible filestore instances are busy.\n" with
      | .error e => .error e
      | .ok msg => .error (.status .aborted msg)
    else
      .ok ready

/-- Embedding of the share-existence scan of
`setupEligibleInstanceAndStartWorkflow`: list shares region by region and
return the first share with the requested name and matching parent protocol.
A cloud-listed share always carries a parent; a missing parent (where the Go
code would dereference nil) is treated as a non-match. -/
def findShareInRegions (listSharesRegion : String → Except GoError (List Share))
    (shareName protocol : String) :
    List String → Except GoError (Option Share)
  | [] => .ok none
  | r :: rs =>
    match listSharesRegion r with
    | .error e => .error e
    | .ok shares =>
      match shares.find? (fun s =>
          s.name == shareName &&
            (match s.parent with
             | some p => p.protocol == protocol
             | none => false)) with
      | some s => .ok (some s)
      | none => findShareInRegions listSharesRegion shareName protocol rs

/-- Outcome of `setupEligibleInstanceAndStartWorkflow`: a started workflow or
an already-existing share. -/
inductive SetupResult where
  | workflow (w : Workflow)
  | existingShare (s : Share)
deriving DecidableEq

/-- Injected cloud results, collaborator results and configuration for
`setupEligibleInstanceAndStartWorkflow`.  `randIndex` resolves the
`rand.Intn` draw (reduced modulo the eligible count); `generateNewShareRes`
injects the `generateNewShare` helper (outside the provided source);
`reserveIPRangeRes` injects the IP allocator; `isCIDR` injects `IsCIDR`. -/
structure SetupEnv where
  regionOf : String → Except GoError String := fun _ => .ok ""
  driverZone : String := ""
  listOpsRes : Except GoError (List OpInfo) := .ok []
  listSharesRegion : String → Except GoError (List Share) := fun _ => .ok []
  elg : ElgEnv := {}
  randIndex : Nat := 0
  generateNewShareRes : MultishareInstance → Except GoError Share :=
    fun _ => .ok {}
  isCIDR : String → Bool := fun _ => false
  reserveIPRangeRes : Except GoError String := .ok ""
  cloud : StartOps := {}

/-- Per-parent share listing used by the `instanceNeedsExpand` call inside
the placement flow (a share produced by `generateNewShare` always carries its
chosen parent; `instanceNeedsExpand` itself errors on a missing parent before
this result is consulted). -/
def shareParentShares (env : SetupEnv) (share : Share) :
    Except GoError (List Share) :=
  match share.parent with
  | some p => env.elg.listSharesOfInstance p
  | none => .ok []

/-- Embedding of `setupEligibleInstanceAndStartWorkflow`.  The second
component records whether a cloud `Start*Op` call was dispatched. -/
def setupEligibleInstanceAndStartWorkflow (env : SetupEnv) (shareName : String)
    (params : List (String × String)) (top : Option (List String))
    (i : MultishareInstance) : Except GoError SetupResult × Bool :=
  match env.listOpsRes with
  | .error e => (.error e, false)
  | .ok ops =>
  match containsOpWithShareName shareName .shareCreate ops with
  | some createShareOp =>
    (.error (.status .aborted ("Share create op " ++ createShareOp.id ++ " in progress")), false)
  | none =>
  match listRegions env.regionOf env.driverZone top with
  | .error e => (.error (.status .invalidArgument e.msg), false)
  | .ok regions =>
  match findShareInRegions env.listSharesRegion shareName i.protocol regions with
  | .error e => (.error e, false)
  | .ok (some s) => (.ok (.existingShare s), false)
  | .ok none =>
  match runEligibleInstanceCheck env.elg params ops i regions with
  | .error e => (.error (.status .aborted e.msg), false)
  | .ok eligible =>
  if h : 0 < eligible.length then
    let chosen := eligible.get ⟨env.randIndex % eligible.length, Nat.mod_lt _ h⟩
    match env.generateNewShareRes chosen with
    | .error e => (.error (.status .internal e.msg), false)
    | .ok share =>
    match instanceNeedsExpand share (shareParentShares env share) share.capacityBytes with
    | .error e => (.error e, false)
    | .ok (true, targetBytes) =>
      let r := startInstanceWorkflow
        { inst := some { chosen with capacityBytes := targetBytes },
          opType := .instanceUpdate } ops env.cloud
      (r.1.map .workflow, r.2)
    | .ok (false, _) =>
      let r := startShareWorkflow { share := some share, opType := .shareCreate } ops env.cloud
      (r.1.map .workflow, r.2)
  else
    if i.connectMode == privateServiceAccess then
      match lookupLabel params paramReservedIPRange with
      | some reservedIPRange =>
        if env.isCIDR reservedIPRange then
          (.error (.status .invalidArgument "When using connect mode PRIVATE_SERVICE_ACCESS, if reserved IP range is specified, it must be a named address range instead of direct CIDR value"), false)
        else
          let r := startInstanceWorkflow
            { inst := some { i with reservedIpRange := reservedIPRange },
              opType := .instanceCreate } ops env.cloud
          (r.1.map .workflow, r.2)
      | none =>
        let r := startInstanceWorkflow { inst := some i, opType := .instanceCreate } ops env.cloud
        (r.1.map .workflow, r.2)
    else
      match lookupLabel params paramReservedIPV4CIDR with
      | some _ =>
        match env.reserveIPRangeRes with
        | .error e => (.error e, false)
        | .ok reservedIPRange =>
          let r := startInstanceWorkflow
            { inst := some { i with reservedIpRange := reservedIPRange },
              opType := .instanceCreate } ops env.cloud
          (r.1.map .workflow, r.2)
      | none =>
        let r := startInstanceWorkflow { inst := some i, opType := .instanceCreate } ops env.cloud
        (r.1.map .workflow, r.2)

/-! General-purpose lemmas about the embedded arithmetic helpers. -/

theorem le_alignBytes (b : Int) {s : Int} (hs : 0 < s) : b ≤ alignBytes b s := by
  unfold alignBytes
  have h1 : s * ((b + s - 1) / s) + (b + s - 1) % s = b + s - 1 :=
    Int.ediv_add_emod (b + s - 1) s
  have h2 : (b + s - 1) % s < s := Int.emod_lt_of_pos (b + s - 1) hs
  nlinarith [h1, h2]

theorem dvd_alignBytes (b s : Int) : s ∣ alignBytes b s := by
  unfold alignBytes
  exact Dvd.intro_left _ rfl

theorem alignBytes_le {b c s : Int} (hs : 0 < s) (hd : s ∣ c) (hbc : b ≤ c) :
    alignBytes b s ≤ c := by
  obtain ⟨m, rfl⟩ := hd
  unfold alignBytes
  have hsne : s ≠ 0 := ne_of_gt hs
  have h1 : (s * m + s - 1) / s = m := by
    have h0 : s * m + s - 1 = (s - 1) + m * s := by ring
    rw [h0, Int.add_mul_ediv_right _ _ hsne,
      Int.ediv_eq_zero_of_lt (by omega) (by omega), zero_add]
  have h2 : (b + s - 1) / s ≤ (s * m + s - 1) / s :=
    Int.ediv_le_ediv hs (by omega)
  rw [h1] at h2
  calc (b + s - 1) / s * s ≤ m * s :=
        mul_le_mul_of_nonneg_right h2 (le_of_lt hs)
    _ = s * m := by ring

/-! Lemmas about interlock predicates. -/

theorem containsOpWithInstanceTargetPrefix_some_iff (i : MultishareInstance)
    (ops : List OpInfo) (u : String)
    (hu : generateMultishareInstanceURI i = .ok u) :
    (∃ op, containsOpWithInstanceTargetPrefix i ops = .ok (some op)) ↔
      ∃ op ∈ ops, op.target = u ∨ goContains op.target (u ++ "/") = true := by
  have hcall : containsOpWithInstanceTargetPrefix i ops =
      .ok (ops.find? (fun op => op.target == u || goContains op.target (u ++ "/"))) := by
    unfold containsOpWithInstanceTargetPrefix
    rw [hu]
  rw [hcall]
  constructor
  · rintro ⟨op, hop⟩
    have hfind : ops.find?
        (fun op => op.target == u || goContains op.target (u ++ "/")) = some op :=
      Except.ok.inj hop
    refine ⟨op, List.mem_of_find?_eq_some hfind, ?_⟩
    have hp := List.find?_some hfind
    simpa [Bool.or_eq_true, beq_iff_eq] using hp
  · rintro ⟨op, hmem, hcond⟩
    have hsome : (ops.find?
        (fun op => op.target == u || goContains op.target (u ++ "/"))).isSome := by
      rw [List.find?_isSome]
      exact ⟨op, hmem, by simpa [Bool.or_eq_true, beq_iff_eq] using hcond⟩
    obtain ⟨op', hop'⟩ := Option.isSome_iff_exists.mp hsome
    exact ⟨op', by rw [hop']⟩

/-- C2: the instance interlock predicate fires exactly on ops whose target
equals the instance URI or contains `instanceURI ++ "/"` as a substring
(Go `strings.Contains`, not merely a prefix test); in particular an in-flight
op on `inst-1` or one of its shares does not block `inst-10`, and vice
versa. -/
theorem C2_instance_interlock_amended :
    (∀ (i : MultishareInstance) (ops : List OpInfo) (u : String),
        generateMultishareInstanceURI i = .ok u →
        ((∃ op, containsOpWithInstanceTargetPrefix i ops = .ok (some op)) ↔
          ∃ op ∈ ops, op.target = u ∨ goContains op.target (u ++ "/") = true)) ∧
    (containsOpWithInstanceTargetPrefix
        { project := "p", location := "l", name := "inst-10" }
        [{ id := "op-1", type := .shareUpdate, target := "projects/p/locations/l/instances/inst-1/shares/s" }] = .ok none) ∧
    (containsOpWithInstanceTargetPrefix
        { project := "p", location := "l", name := "inst-10" }
        [{ id := "op-2", type := .instanceUpdate, target := "projects/p/locations/l/instances/inst-1" }] = .ok none) ∧
    (containsOpWithInstanceTargetPrefix
        { project := "p", location := "l", name := "inst-1" }
        [{ id := "op-3", type := .instanceUpdate, target := "projects/p/locations/l/instances/inst-10" }] = .ok none) ∧
    (containsOpWithInstanceTargetPrefix
        { project := "p", location := "l", name := "inst-1" }
        [{ id := "op-1", type := .shareUpdate, target := "projects/p/locations/l/instances/inst-1/shares/s" }] =
      .ok (some { id := "op-1", type := .shareUpdate, target := "projects/p/locations/l/instances/inst-1/shares/s" })) := by
  exact ⟨containsOpWithInstanceTargetPrefix_some_iff, rfl, rfl, rfl, rfl⟩

/-- C2 witness: the characterization applied to a concrete instance and
snapshot, with its hypothesis discharged by evaluation. -/
theorem C2_instance_interlock_amended_witness :
    (∃ op, containsOpWithInstanceTargetPrefix
        { project := "p", location := "l", name := "inst-1" }
        [{ id := "op-1", type := .shareUpdate, target := "projects/p/locations/l/instances/inst-1/shares/s" }] =
        .ok (some op)) ↔
      ∃ op ∈ [{ id := "op-1", type := .shareUpdate, target := "projects/p/locations/l/instances/inst-1/shares/s" : OpInfo }],
        op.target = "projects/p/locations/l/instances/inst-1" ∨
          goContains op.target ("projects/p/locations/l/instances/inst-1" ++ "/") = true :=
  C2_instance_interlock_amended.1
    { project := "p", location := "l", name := "inst-1" } _ _ rfl

/-- C2 counterexample: the predicate also fires on a target that merely
contains `instanceURI ++ "/"` in the middle, refuting the claim that it
fires only on targets equal to the URI or beginning with `instanceURI/`. -/
theorem C2_instance_interlock_counterexample :
    (containsOpWithInstanceTargetPrefix
        { project := "p", location := "l", name := "inst" }
        [{ id := "op-1", type := .shareCreate, target := "x/projects/p/locations/l/instances/inst/shares/s" }] =
      .ok (some { id := "op-1", type := .shareCreate, target := "x/projects/p/locations/l/instances/inst/shares/s" })) ∧
    ("x/projects/p/locations/l/instances/inst/shares/s" ≠
      "projects/p/locations/l/instances/inst") ∧
    (beginsWith "x/projects/p/locations/l/instances/inst/shares/s"
      ("projects/p/locations/l/instances/inst" ++ "/") = false) := by
  exact ⟨rfl, by decide, by decide⟩

/-! Lemmas about the topology resolver. -/

theorem listRegionsLoop_pure (regionOf : String → Except GoError String)
    (f : String → String) :
    ∀ (zones acc : List String),
      (∀ z ∈ zones, regionOf z = .ok (f z)) →
      listRegionsLoop regionOf zones acc =
        .ok (acc ++ dedupKeepFirst ((zones.map f).filter (fun r => decide (¬r ∈ acc)))) := by
  intro zones
  induction zones with
  | nil => intro acc _; simp [listRegionsLoop, dedupKeepFirst]
  | cons z zs ih =>
    intro acc hall
    have hz : regionOf z = .ok (f z) := hall z (List.mem_cons_self z zs)
    have hrest : ∀ z' ∈ zs, regionOf z' = .ok (f z') :=
      fun z' hz' => hall z' (List.mem_cons_of_mem z hz')
    simp only [listRegionsLoop, hz]
    by_cases hmem : f z ∈ acc
    · rw [if_pos hmem, ih acc hrest]
      have hstep : ((z :: zs).map f).filter (fun r => decide (¬r ∈ acc)) =
          (zs.map f).filter (fun r => decide (¬r ∈ acc)) := by
        simp [List.filter_cons, hmem]
      rw [hstep]
    · rw [if_neg hmem, ih (acc ++ [f z]) hrest]
      have hstep : ((z :: zs).map f).filter (fun r => decide (¬r ∈ acc)) =
          f z :: ((zs.map f).filter (fun r => decide (¬r ∈ acc))) := by
        simp [List.filter_cons, hmem]
      rw [hstep]
      have hfilter : (zs.map f).filter (fun r => decide (¬r ∈ acc ++ [f z])) =
          ((zs.map f).filter (fun r => decide (¬r ∈ acc))).filter
            (fun y => decide (¬y = f z)) := by
        rw [List.filter_filter]
        apply List.filter_congr
        intro a _
        by_cases h1 : a ∈ acc <;> by_cases h2 : a = f z <;>
          simp [h1, h2, List.mem_append]
      simp only [dedupKeepFirst]
      rw [List.append_assoc, List.singleton_append, hfilter]

theorem listRegionsLoop_error (regionOf : String → Except GoError String) :
    ∀ (zones acc : List String),
      (∃ z ∈ zones, ∃ e, regionOf z = .error e) →
      ∃ e, listRegionsLoop regionOf zones acc = .error e := by
  intro zones
  induction zones with
  | nil => intro acc h; simp at h
  | cons z zs ih =>
    intro acc h
    cases hz : regionOf z with
    | error e => exact ⟨e, by simp only [listRegionsLoop, hz]⟩
    | ok region =>
      have hzs : ∃ z' ∈ zs, ∃ e, regionOf z' = .error e := by
        rcases h with ⟨z', hz', e, he⟩
        rcases List.mem_cons.mp hz' with rfl | hmem
        · rw [hz] at he; cases he
        · exact ⟨z', hmem, e, he⟩
      simp only [listRegionsLoop, hz]
      by_cases hmem : region ∈ acc
      · rw [if_pos hmem]; exact ih acc hzs
      · rw [if_neg hmem]; exact ih (acc ++ [region]) hzs

/-- C9: the region resolver maps every zone of the topology requirement to
its region, deduplicated keeping the first occurrence of each region; with no
requirement, or when the mapping yields no regions, it returns exactly the
one-element list with the driver zone's region; a malformed zone yields an
error. -/
theorem C9_listRegions_characterization :
    (∀ (regionOf : String → Except GoError String) (dz cr : String),
        regionOf dz = .ok cr →
        listRegions regionOf dz none = .ok [cr]) ∧
    (∀ (regionOf : String → Except GoError String) (f : String → String)
        (dz cr : String) (zones : List String),
        regionOf dz = .ok cr →
        (∀ z ∈ zones, regionOf z = .ok (f z)) →
        listRegions regionOf dz (some zones) =
          .ok (if dedupKeepFirst (zones.map f) = [] then [cr]
               else dedupKeepFirst (zones.map f))) ∧
    (∀ (regionOf : String → Except GoError String) (dz cr : String)
        (zones : List String),
        regionOf dz = .ok cr →
        (∃ z ∈ zones, ∃ e, regionOf z = .error e) →
        ∃ e, listRegions regionOf dz (some zones) = .error e) := by
  refine ⟨?_, ?_, ?_⟩
  · intro regionOf dz cr hdz
    simp only [listRegions, hdz]
  · intro regionOf f dz cr zones hdz hall
    have hloop := listRegionsLoop_pure regionOf f zones [] hall
    have hfix : (zones.map f).filter (fun r => decide (¬r ∈ ([] : List String))) =
        zones.map f := List.filter_eq_self.mpr (by intro a _; simp)
    rw [hfix, List.nil_append] at hloop
    simp only [listRegions, hdz, hloop]
    cases hd : dedupKeepFirst (zones.map f) with
    | nil => simp
    | cons a as => simp
  · intro regionOf dz cr zones hdz herr
    obtain ⟨e, hloop⟩ := listRegionsLoop_error regionOf zones [] herr
    exact ⟨e, by simp only [listRegions, hdz, hloop]⟩

/-- C9 witness: the resolver applied to three concrete zones in two regions,
deduplicating to the two regions in first-seen order. -/
theorem C9_listRegions_witness :
    listRegions (fun z => .ok (if z = "us-east1-b" then "us-east1" else "us-central1"))
        "us-central1-c" (some ["us-central1-a", "us-central1-b", "us-east1-b"]) =
      .ok (if dedupKeepFirst (["us-central1-a", "us-central1-b", "us-east1-b"].map
              (fun z => if z = "us-east1-b" then "us-east1" else "us-central1")) = []
           then ["us-central1"]
           else dedupKeepFirst (["us-central1-a", "us-central1-b", "us-east1-b"].map
              (fun z => if z = "us-east1-b" then "us-east1" else "us-central1"))) :=
  C9_listRegions_characterization.2.1 _ _ _ _ _ rfl
    (by intro z hz; fin_cases hz <;> rfl)

/-! Lemmas about the workflow dispatchers. -/

theorem verifyNoRunningInstanceOps_ok {i : MultishareInstance}
    {ops : List OpInfo} {u : String}
    (hu : generateMultishareInstanceURI i = .ok u)
    (h : verifyNoRunningInstanceOps i ops = .ok ()) :
    ∀ op ∈ ops, op.target ≠ u := by
  intro op hop
  cases hfind : ops.find? (fun op => op.target == u) with
  | some o => simp [verifyNoRunningInstanceOps, hu, hfind] at h
  | none =>
    have hnone := List.find?_eq_none.mp hfind op hop
    simpa using hnone

theorem verifyNoRunningShareOps_ok {s : Share} {ops : List OpInfo} {su : String}
    (hsu : generateShareURI s = .ok su)
    (h : verifyNoRunningShareOps s ops = .ok ()) :
    ∀ op ∈ ops, op.target ≠ su := by
  intro op hop
  cases hfind : ops.find? (fun op => op.target == su) with
  | some o => simp [verifyNoRunningShareOps, hsu, hfind] at h
  | none =>
    have hnone := List.find?_eq_none.mp hfind op hop
    simpa using hnone

theorem startShareWorkflow_ok_shape {w : Workflow} {ops : List OpInfo}
    {cloud : StartOps} {w' : Workflow}
    (h : (startShareWorkflow w ops cloud).1 = .ok w') :
    ∃ s p n, w.share = some s ∧ s.parent = some p ∧
      verifyNoRunningInstanceOps p ops = .ok () ∧
      verifyNoRunningShareOps s ops = .ok () ∧
      w' = { w with opName := n } := by
  cases hws : w.share with
  | none => simp [startShareWorkflow, hws] at h
  | some s =>
  cases hp : s.parent with
  | none => simp [startShareWorkflow, hws, hp] at h
  | some p =>
  cases hv1 : verifyNoRunningInstanceOps p ops with
  | error e => simp [startShareWorkflow, hws, hp, hv1] at h
  | ok u1 =>
  cases u1
  cases hv2 : verifyNoRunningShareOps s ops with
  | error e => simp [startShareWorkflow, hws, hp, hv1, hv2] at h
  | ok u2 =>
  cases u2
  cases ht : w.opType with
  | shareCreate =>
    cases hc : cloud.startCreateShareOp with
    | error e => simp [startShareWorkflow, hws, hp, hv1, hv2, ht, hc, Except.map] at h
    | ok n =>
      simp only [startShareWorkflow, hws, hp, hv1, hv2, ht, hc, Except.map] at h
      exact ⟨s, p, n, rfl, hp, hv1, hv2, (Except.ok.inj h).symm⟩
  | shareUpdate =>
    cases hc : cloud.startResizeShareOp with
    | error e => simp [startShareWorkflow, hws, hp, hv1, hv2, ht, hc, Except.map] at h
    | ok n =>
      simp only [startShareWorkflow, hws, hp, hv1, hv2, ht, hc, Except.map] at h
      exact ⟨s, p, n, rfl, hp, hv1, hv2, (Except.ok.inj h).symm⟩
  | shareDelete =>
    cases hc : cloud.startDeleteShareOp with
    | error e => simp [startShareWorkflow, hws, hp, hv1, hv2, ht, hc, Except.map] at h
    | ok n =>
      simp only [startShareWorkflow, hws, hp, hv1, hv2, ht, hc, Except.map] at h
      exact ⟨s, p, n, rfl, hp, hv1, hv2, (Except.ok.inj h).symm⟩
  | instanceCreate => simp [startShareWorkflow, hws, hp, hv1, hv2, ht] at h
  | instanceUpdate => simp [startShareWorkflow, hws, hp, hv1, hv2, ht] at h
  | instanceDelete => simp [startShareWorkflow, hws, hp, hv1, hv2, ht] at h
  | unknownOp => simp [startShareWorkflow, hws, hp, hv1, hv2, ht] at h

theorem startInstanceWorkflow_ok_shape {w : Workflow} {ops : List OpInfo}
    {cloud : StartOps} {w' : Workflow}
    (h : (startInstanceWorkflow w ops cloud).1 = .ok w') :
    ∃ i n, w.inst = some i ∧
      verifyNoRunningInstanceOrShareOpsForInstance i ops = .ok () ∧
      w' = { w with opName := n } := by
  cases hwi : w.inst with
  | none => simp [startInstanceWorkflow, hwi] at h
  | some i =>
  cases hv : verifyNoRunningInstanceOrShareOpsForInstance i ops with
  | error e => simp [startInstanceWorkflow, hwi, hv] at h
  | ok u1 =>
  cases u1
  cases ht : w.opType with
  | instanceCreate =>
    cases hc : cloud.startCreateMultishareInstanceOp with
    | error e => simp [startInstanceWorkflow, hwi, hv, ht, hc, Except.map] at h
    | ok n =>
      simp only [startInstanceWorkflow, hwi, hv, ht, hc, Except.map] at h
      exact ⟨i, n, rfl, hv, (Except.ok.inj h).symm⟩
  | instanceUpdate =>
    cases hc : cloud.startResizeMultishareInstanceOp with
    | error e => simp [startInstanceWorkflow, hwi, hv, ht, hc, Except.map] at h
    | ok n =>
      simp only [startInstanceWorkflow, hwi, hv, ht, hc, Except.map] at h
      exact ⟨i, n, rfl, hv, (Except.ok.inj h).symm⟩
  | instanceDelete =>
    cases hc : cloud.startDeleteMultishareInstanceOp with
    | error e => simp [startInstanceWorkflow, hwi, hv, ht, hc, Except.map] at h
    | ok n =>
      simp only [startInstanceWorkflow, hwi, hv, ht, hc, Except.map] at h
      exact ⟨i, n, rfl, hv, (Except.ok.inj h).symm⟩
  | shareCreate => simp [startInstanceWorkflow, hwi, hv, ht] at h
  | shareUpdate => simp [startInstanceWorkflow, hwi, hv, ht] at h
  | shareDelete => simp [startInstanceWorkflow, hwi, hv, ht] at h
  | unknownOp => simp [startInstanceWorkflow, hwi, hv, ht] at h

/-- C1 (amended): when a share-level dispatch through `startShareWorkflow`
returns a workflow, the op snapshot passed to it contains no op whose target
equals the parent instance's URI and no op whose target equals the share's
own URI.  (Ops on sibling shares under the same instance are not excluded:
the parent check is an exact-equality check.) -/
theorem C1_share_dispatch_interlock_amended :
    ∀ (w : Workflow) (ops : List OpInfo) (cloud : StartOps) (w' : Workflow)
      (s : Share) (p : MultishareInstance) (u su : String),
      (startShareWorkflow w ops cloud).1 = .ok w' →
      w.share = some s → s.parent = some p →
      generateMultishareInstanceURI p = .ok u →
      generateShareURI s = .ok su →
      ∀ op ∈ ops, op.target ≠ u ∧ op.target ≠ su := by
  intro w ops cloud w' s p u su h hs hp hu hsu op hop
  obtain ⟨s', p', n, hs', hp', hv1, hv2, _⟩ := startShareWorkflow_ok_shape h
  rw [hs] at hs'
  obtain rfl : s = s' := Option.some.inj hs'
  rw [hp] at hp'
  obtain rfl : p = p' := Option.some.inj hp'
  exact ⟨verifyNoRunningInstanceOps_ok hu hv1 op hop,
    verifyNoRunningShareOps_ok hsu hv2 op hop⟩

/-- C1 witness: a concrete dispatch (snapshot holding only an op on an
unrelated instance) whose interlock facts follow by applying the theorem. -/
theorem C1_share_dispatch_interlock_amended_witness :
    ({ id := "op-9", type := .instanceUpdate, target := "projects/q/locations/l/instances/z" } : OpInfo).target ≠
      "projects/p/locations/l/instances/i" ∧
    ({ id := "op-9", type := .instanceUpdate, target := "projects/q/locations/l/instances/z" } : OpInfo).target ≠
      "projects/p/locations/l/instances/i/shares/mine" :=
  C1_share_dispatch_interlock_amended
    { share := some { name := "mine",
                      parent := some { project := "p", location := "l", name := "i" } },
      opType := .shareCreate }
    [{ id := "op-9", type := .instanceUpdate, target := "projects/q/locations/l/instances/z" }]
    { startCreateShareOp := .ok "op-new" }
    { share := some { name := "mine",
                      parent := some { project := "p", location := "l", name := "i" } },
      opType := .shareCreate, opName := "op-new" }
    _ _ _ _ rfl rfl rfl rfl rfl
    { id := "op-9", type := .instanceUpdate, target := "projects/q/locations/l/instances/z" }
    (List.mem_cons_self _ _)

/-- C1 counterexample: `startShareWorkflow` returns a workflow although the
snapshot contains an op whose target begins with the parent instance URI
followed by `/` (an op on a sibling share), refuting the claimed invariant. -/
theorem C1_share_dispatch_interlock_counterexample :
    ((startShareWorkflow
        { share := some { name := "mine",
                          parent := some { project := "p", location := "l", name := "i" } },
          opType := .shareCreate }
        [{ id := "op-1", type := .shareUpdate, target := "projects/p/locations/l/instances/i/shares/other" }]
        { startCreateShareOp := .ok "op-new" }).1 =
      .ok { share := some { name := "mine",
                            parent := some { project := "p", location := "l", name := "i" } },
            opType := .shareCreate, opName := "op-new" }) ∧
    (beginsWith "projects/p/locations/l/instances/i/shares/other"
      ("projects/p/locations/l/instances/i" ++ "/") = true) :=
  ⟨rfl, by decide⟩

/-- C10 (amended): `startShareWorkflow` returns an Internal-coded error and
dispatches no cloud operation when the workflow's share is missing or the
share's parent is missing (unconditionally), and when the op type is outside
the share kinds provided the interlock checks pass (with a conflicting op in
the snapshot the code answers Aborted instead — still without dispatching);
`startInstanceWorkflow` behaves the same for a missing instance or an op type
outside the instance kinds.  Both embeddings are total functions, so neither
function panics on these inputs. -/
theorem C10_degenerate_inputs_amended :
    (∀ (ops : List OpInfo) (cloud : StartOps) (w : Workflow),
        w.share = none →
        startShareWorkflow w ops cloud =
          (.error (.status .internal "share not found in workflow object"), false)) ∧
    (∀ (ops : List OpInfo) (cloud : StartOps) (w : Workflow) (s : Share),
        w.share = some s → s.parent = none →
        startShareWorkflow w ops cloud =
          (.error (.status .internal "share parent not found in workflow object"), false)) ∧
    (∀ (ops : List OpInfo) (cloud : StartOps) (w : Workflow) (s : Share)
        (p : MultishareInstance),
        w.share = some s → s.parent = some p →
        verifyNoRunningInstanceOps p ops = .ok () →
        verifyNoRunningShareOps s ops = .ok () →
        (w.opType = .instanceCreate ∨ w.opType = .instanceUpdate ∨
          w.opType = .instanceDelete ∨ w.opType = .unknownOp) →
        startShareWorkflow w ops cloud =
          (.error (.status .internal
            ("for share workflow, unknown op type " ++ w.opType.str)), false)) ∧
    (∀ (ops : List OpInfo) (cloud : StartOps) (w : Workflow),
        w.inst = none →
        startInstanceWorkflow w ops cloud =
          (.error (.status .internal "instance not found in workflow object"), false)) ∧
    (∀ (ops : List OpInfo) (cloud : StartOps) (w : Workflow)
        (i : MultishareInstance),
        w.inst = some i →
        verifyNoRunningInstanceOrShareOpsForInstance i ops = .ok () →
        (w.opType = .shareCreate ∨ w.opType = .shareUpdate ∨
          w.opType = .shareDelete ∨ w.opType = .unknownOp) →
        startInstanceWorkflow w ops cloud =
          (.error (.status .internal
            ("for instance workflow, unknown op type " ++ w.opType.str)), false)) := by
  refine ⟨?_, ?_, ?_, ?_, ?_⟩
  · intro ops cloud w hs
    simp [startShareWorkflow, hs]
  · intro ops cloud w s hs hp
    simp [startShareWorkflow, hs, hp]
  · intro ops cloud w s p hs hp hv1 hv2 hty
    rcases hty with ht | ht | ht | ht <;>
      simp [startShareWorkflow, hs, hp, hv1, hv2, ht]
  · intro ops cloud w hi
    simp [startInstanceWorkflow, hi]
  · intro ops cloud w i hi hv hty
    rcases hty with ht | ht | ht | ht <;>
      simp [startInstanceWorkflow, hi, hv, ht]

/-- C10 witness: a share workflow with an unknown op type and an empty
snapshot, obtained by applying the theorem with every hypothesis discharged
by evaluation. -/
theorem C10_degenerate_inputs_amended_witness :
    startShareWorkflow
        { share := some { name := "mine",
                          parent := some { project := "p", location := "l", name := "i" } },
          opType := .unknownOp } [] {} =
      (.error (.status .internal
        ("for share workflow, unknown op type " ++
          (({ share := some { name := "mine",
                              parent := some { project := "p", location := "l", name := "i" } },
              opType := .unknownOp } : Workflow)).opType.str)), false) :=
  C10_degenerate_inputs_amended.2.2.1 [] {} _ _
    { project := "p", location := "l", name := "i" }
    rfl rfl rfl rfl (Or.inr (Or.inr (Or.inr rfl)))

/-- C10 counterexample: a share workflow with an op type outside the share
kinds, together with a conflicting op in the snapshot, yields an
Aborted-coded error, refuting the claim that such inputs always produce an
Internal-coded error. -/
theorem C10_degenerate_inputs_counterexample :
    (resultCode (startShareWorkflow
        { share := some { name := "mine",
                          parent := some { project := "p", location := "l", name := "i" } },
          opType := .instanceCreate }
        [{ id := "op-1", type := .instanceUpdate, target := "projects/p/locations/l/instances/i" }]
        {}).1 = some .aborted) ∧
    Code.aborted ≠ Code.internal :=
  ⟨rfl, by decide⟩

theorem containsOpWithShareTarget_some_type {s : Share} {t : OperationType}
    {ops : List OpInfo} {op : OpInfo}
    (h : containsOpWithShareTarget s t ops = .ok (some op)) : op.type = t := by
  cases hu : generateShareURI s with
  | error e => simp [containsOpWithShareTarget, hu] at h
  | ok su =>
    simp only [containsOpWithShareTarget, hu] at h
    have hfind := Except.ok.inj h
    have hp := List.find?_some hfind
    simp only [Bool.and_eq_true, beq_iff_eq] at hp
    exact hp.1

/-- C8 (amended): when the snapshot holds a ShareDelete op targeting the
share's URI, `checkAndStartShareDeleteWorkflow` joins it — returning a
workflow carrying that op's id and kind, with no `StartDeleteShareOp`
dispatched; when no such op exists and the interlock checks pass, it
dispatches exactly a new ShareDelete through the cloud (an op on the parent
instance or on the share itself instead yields Aborted with no dispatch), so
repeated deletes of a share keep at most one cloud op in flight. -/
theorem C8_delete_share_idempotent_amended :
    (∀ (share : Share) (ops : List OpInfo) (cloud : StartOps) (op : OpInfo),
        containsOpWithShareTarget share .shareDelete ops = .ok (some op) →
        checkAndStartShareDeleteWorkflow share (.ok ops) cloud =
          (.ok (some { share := some share, opName := op.id, opType := op.type }), false) ∧
        op.type = .shareDelete) ∧
    (∀ (share : Share) (ops : List OpInfo) (cloud : StartOps) (p : MultishareInstance),
        containsOpWithShareTarget share .shareDelete ops = .ok none →
        share.parent = some p →
        verifyNoRunningInstanceOps p ops = .ok () →
        verifyNoRunningShareOps share ops = .ok () →
        checkAndStartShareDeleteWorkflow share (.ok ops) cloud =
          (((cloud.startDeleteShareOp).map
              (fun n => ({ share := some share, opType := .shareDelete,
                           opName := n } : Workflow))).map some, true)) := by
  constructor
  · intro share ops cloud op hfound
    refine ⟨?_, containsOpWithShareTarget_some_type hfound⟩
    simp [checkAndStartShareDeleteWorkflow, hfound]
  · intro share ops cloud p hfound hp hv1 hv2
    simp [checkAndStartShareDeleteWorkflow, hfound, startShareWorkflow, hp, hv1, hv2]

/-- C8 witness: a concrete join — the snapshot holds a ShareDelete op for the
share, and the call returns a workflow wrapping that op's id and kind without
dispatching. -/
theorem C8_delete_share_idempotent_amended_witness :
    checkAndStartShareDeleteWorkflow
        { name := "mine", parent := some { project := "p", location := "l", name := "i" } }
        (.ok [{ id := "op-5", type := .shareDelete, target := "projects/p/locations/l/instances/i/shares/mine" }])
        {} =
      (.ok (some { share := some { name := "mine",
                                   parent := some { project := "p", location := "l", name := "i" } },
                   opName := "op-5", opType := .shareDelete }), false) :=
  ((C8_delete_share_idempotent_amended.1
    { name := "mine", parent := some { project := "p", location := "l", name := "i" } }
    [{ id := "op-5", type := .shareDelete, target := "projects/p/locations/l/instances/i/shares/mine" }]
    {}
    { id := "op-5", type := .shareDelete, target := "projects/p/locations/l/instances/i/shares/mine" }
    rfl).1)

/-- C8 counterexample: with no ShareDelete op in the snapshot but a
ShareUpdate op targeting the share, the call aborts without dispatching any
op, refuting the claim that absence of a matching ShareDelete op always leads
to a new ShareDelete dispatch. -/
theorem C8_delete_share_idempotent_counterexample :
    (containsOpWithShareTarget
        { name := "mine", parent := some { project := "p", location := "l", name := "i" } }
        .shareDelete
        [{ id := "op-7", type := .shareUpdate, target := "projects/p/locations/l/instances/i/shares/mine" }] =
      .ok none) ∧
    (resultCode (checkAndStartShareDeleteWorkflow
        { name := "mine", parent := some { project := "p", location := "l", name := "i" } }
        (.ok [{ id := "op-7", type := .shareUpdate, target := "projects/p/locations/l/instances/i/shares/mine" }])
        {}).1 = some .aborted) ∧
    ((checkAndStartShareDeleteWorkflow
        { name := "mine", parent := some { project := "p", location := "l", name := "i" } }
        (.ok [{ id := "op-7", type := .shareUpdate, target := "projects/p/locations/l/instances/i/shares/mine" }])
        {}).2 = false) :=
  ⟨rfl, rfl, rfl⟩

/-! Lemmas about the delete-or-shrink reconcile. -/

theorem reconcile_shrink_inv {i : MultishareInstance} {ops : List OpInfo}
    {inst : MultishareInstance} {shares : List Share} {cloud : StartOps}
    {w : Workflow}
    (h : (checkAndStartInstanceDeleteOrShrinkWorkflow i (.ok ops) (.ok inst)
      (.ok shares) cloud).1 = .ok (some w))
    (ht : w.opType = .instanceUpdate) :
    sumShareBytes shares < inst.capacityBytes ∧
    minMultishareInstanceSizeBytes < inst.capacityBytes ∧
    w.inst = some { inst with capacityBytes := max (alignBytes (sumShareBytes
      shares) (gbToBytes inst.capacityStepSizeGb)) minMultishareInstanceSizeBytes } ∧
    max (alignBytes (sumShareBytes shares) (gbToBytes inst.capacityStepSizeGb))
      minMultishareInstanceSizeBytes ≠ inst.capacityBytes := by
  cases hv : verifyNoRunningInstanceOrShareOpsForInstance i ops with
  | error e => simp [checkAndStartInstanceDeleteOrShrinkWorkflow, hv] at h
  | ok u =>
  cases u
  by_cases hemp : shares.isEmpty
  · cases hr : (startInstanceWorkflow { inst := some inst, opType := .instanceDelete } ops cloud).1 with
    | error e =>
      by_cases hnf : isNotFoundErr e <;>
        simp [checkAndStartInstanceDeleteOrShrinkWorkflow, hv, hemp, hr, hnf] at h
    | ok w0 =>
      simp [checkAndStartInstanceDeleteOrShrinkWorkflow, hv, hemp, hr] at h
      obtain ⟨i0, n, hwi, hv0, hshape⟩ := startInstanceWorkflow_ok_shape hr
      rw [← h] at ht
      rw [hshape] at ht
      simp at ht
  · by_cases hcond : sumShareBytes shares < inst.capacityBytes ∧
        minMultishareInstanceSizeBytes < inst.capacityBytes
    · by_cases heq : inst.capacityBytes =
          max (alignBytes (sumShareBytes shares) (gbToBytes inst.capacityStepSizeGb))
            minMultishareInstanceSizeBytes
      · simp [checkAndStartInstanceDeleteOrShrinkWorkflow, hv, hemp, hcond, heq] at h
      · cases hr : (startInstanceWorkflow
            { inst := some { inst with capacityBytes := max (alignBytes (sumShareBytes
                shares) (gbToBytes inst.capacityStepSizeGb)) minMultishareInstanceSizeBytes },
              opType := .instanceUpdate } ops cloud).1 with
        | error e =>
          by_cases hnf : isNotFoundErr e <;>
            simp [checkAndStartInstanceDeleteOrShrinkWorkflow, hv, hemp, hcond, heq, hr, hnf] at h
        | ok w0 =>
          simp [checkAndStartInstanceDeleteOrShrinkWorkflow, hv, hemp, hcond, heq, hr] at h
          obtain ⟨i0, n, hwi, hv0, hshape⟩ := startInstanceWorkflow_ok_shape hr
          refine ⟨hcond.1, hcond.2, ?_, fun hx => heq hx.symm⟩
          rw [← h, hshape]
    · simp [checkAndStartInstanceDeleteOrShrinkWorkflow, hv, hemp, hcond] at h

theorem instanceNeedsExpand_true_inv {sh : Share} {parent : MultishareInstance}
    {shares : List Share} {needed t : Int}
    (hp : sh.parent = some parent)
    (h : instanceNeedsExpand sh (.ok shares) needed = .ok (true, t)) :
    parent.capacityBytes - sumShareBytes shares < needed ∧
    t = min (alignBytes (needed + sumShareBytes shares)
        (gbToBytes parent.capacityStepSizeGb)) maxMultishareInstanceSizeBytes := by
  by_cases hlt : parent.capacityBytes - sumShareBytes shares < needed
  · refine ⟨hlt, ?_⟩
    simp only [instanceNeedsExpand, hp, if_pos hlt] at h
    have h2 := Except.ok.inj h
    exact (congrArg Prod.snd h2).symm
  · simp [instanceNeedsExpand, hp, hlt] at h

/-- C3 (amended): whenever the delete-or-shrink reconcile dispatches an
InstanceUpdate, and the fetched instance satisfies the data-model invariant
that its capacity is a positive multiple of its capacity step size, the
dispatched target capacity is strictly below the instance's current
capacity. -/
theorem C3_shrink_monotonic_amended :
    ∀ (i : MultishareInstance) (ops : List OpInfo) (inst : MultishareInstance)
      (shares : List Share) (cloud : StartOps) (w : Workflow)
      (wi : MultishareInstance),
      0 < gbToBytes inst.capacityStepSizeGb →
      gbToBytes inst.capacityStepSizeGb ∣ inst.capacityBytes →
      (checkAndStartInstanceDeleteOrShrinkWorkflow i (.ok ops) (.ok inst)
        (.ok shares) cloud).1 = .ok (some w) →
      w.opType = .instanceUpdate →
      w.inst = some wi →
      wi.capacityBytes < inst.capacityBytes := by
  intro i ops inst shares cloud w wi hs hdvd h ht hwi
  obtain ⟨hlt, hmin, hwinst, hne⟩ := reconcile_shrink_inv h ht
  rw [hwi] at hwinst
  obtain rfl := Option.some.inj hwinst
  have halign : alignBytes (sumShareBytes shares) (gbToBytes inst.capacityStepSizeGb) ≤
      inst.capacityBytes := alignBytes_le hs hdvd (le_of_lt hlt)
  exact lt_of_le_of_ne (max_le halign (le_of_lt hmin)) hne

/-- C3 witness: a concrete shrink-to-min dispatch (capacity 1280 GiB, one
100 GiB share, step 256 GiB) whose target, 1024 GiB, is strictly below the
current capacity. -/
theorem C3_shrink_monotonic_amended_witness :
    (1024 * 1073741824 : Int) < 1280 * 1073741824 :=
  C3_shrink_monotonic_amended
    { project := "p", location := "l", name := "i", capacityBytes := 1280 * 1073741824, capacityStepSizeGb := 256 }
    [] { project := "p", location := "l", name := "i", capacityBytes := 1280 * 1073741824, capacityStepSizeGb := 256 }
    [{ name := "s1", capacityBytes := 100 * 1073741824 }]
    { startResizeMultishareInstanceOp := .ok "op-11" }
    { inst := some { project := "p", location := "l", name := "i", capacityBytes := 1024 * 1073741824, capacityStepSizeGb := 256 },
      opType := .instanceUpdate, opName := "op-11" }
    { project := "p", location := "l", name := "i", capacityBytes := 1024 * 1073741824, capacityStepSizeGb := 256 }
    (by decide) (by decide) rfl rfl rfl

/-- C3 counterexample: with a current capacity of 1152 GiB (not a multiple of
the 256 GiB step) and 1025 GiB of shares, the reconcile dispatches an
InstanceUpdate whose target, 1280 GiB, exceeds the current capacity,
refuting the claim for arbitrary capacities satisfying the entry
condition. -/
theorem C3_shrink_monotonic_counterexample :
    ((checkAndStartInstanceDeleteOrShrinkWorkflow
        { project := "p", location := "l", name := "i", capacityBytes := 1152 * 1073741824, capacityStepSizeGb := 256 }
        (.ok [])
        (.ok { project := "p", location := "l", name := "i", capacityBytes := 1152 * 1073741824, capacityStepSizeGb := 256 })
        (.ok [{ name := "s1", capacityBytes := 1025 * 1073741824 }])
        { startResizeMultishareInstanceOp := .ok "op-9" }).1 =
      .ok (some { inst := some { project := "p", location := "l", name := "i", capacityBytes := 1280 * 1073741824, capacityStepSizeGb := 256 },
                  opType := .instanceUpdate, opName := "op-9" })) ∧
    ((1280 * 1073741824 : Int) > 1152 * 1073741824) :=
  ⟨rfl, by decide⟩

/-- C4 (amended): under the data-model invariants (positive step size;
capacity a multiple of the step; capacity within the instance bounds), every
InstanceUpdate target the manager computes lies within
`[MinInstanceSize, MaxInstanceSize]` and is a multiple of the step size
except when clamped, in which case it equals the clamping bound
(`MaxInstanceSize` for the expand target, `MinInstanceSize` for the shrink
target). -/
theorem C4_alignment_bounds_amended :
    (∀ (sh : Share) (parent : MultishareInstance) (shares : List Share)
        (needed t : Int),
        sh.parent = some parent →
        0 < gbToBytes parent.capacityStepSizeGb →
        minMultishareInstanceSizeBytes ≤ parent.capacityBytes →
        instanceNeedsExpand sh (.ok shares) needed = .ok (true, t) →
        minMultishareInstanceSizeBytes ≤ t ∧ t ≤ maxMultishareInstanceSizeBytes ∧
          (gbToBytes parent.capacityStepSizeGb ∣ t ∨
            t = maxMultishareInstanceSizeBytes)) ∧
    (∀ (i : MultishareInstance) (ops : List OpInfo) (inst : MultishareInstance)
        (shares : List Share) (cloud : StartOps) (w : Workflow)
        (wi : MultishareInstance),
        0 < gbToBytes inst.capacityStepSizeGb →
        gbToBytes inst.capacityStepSizeGb ∣ inst.capacityBytes →
        inst.capacityBytes ≤ maxMultishareInstanceSizeBytes →
        (checkAndStartInstanceDeleteOrShrinkWorkflow i (.ok ops) (.ok inst)
          (.ok shares) cloud).1 = .ok (some w) →
        w.opType = .instanceUpdate →
        w.inst = some wi →
        minMultishareInstanceSizeBytes ≤ wi.capacityBytes ∧
          wi.capacityBytes ≤ maxMultishareInstanceSizeBytes ∧
          (gbToBytes inst.capacityStepSizeGb ∣ wi.capacityBytes ∨
            wi.capacityBytes = minMultishareInstanceSizeBytes)) := by
  constructor
  · intro sh parent shares needed t hp hs hmin h
    obtain ⟨hlt, rfl⟩ := instanceNeedsExpand_true_inv hp h
    have halign : needed + sumShareBytes shares ≤
        alignBytes (needed + sumShareBytes shares)
          (gbToBytes parent.capacityStepSizeGb) := le_alignBytes _ hs
    have hgt : minMultishareInstanceSizeBytes <
        alignBytes (needed + sumShareBytes shares)
          (gbToBytes parent.capacityStepSizeGb) := by omega
    refine ⟨le_min (le_of_lt hgt) (by decide), min_le_right _ _, ?_⟩
    by_cases hle : alignBytes (needed + sumShareBytes shares)
        (gbToBytes parent.capacityStepSizeGb) ≤ maxMultishareInstanceSizeBytes
    · rw [min_eq_left hle]
      exact Or.inl (dvd_alignBytes _ _)
    · rw [min_eq_right (le_of_not_le hle)]
      exact Or.inr rfl
  · intro i ops inst shares cloud w wi hs hdvd hmax h ht hwi
    obtain ⟨hlt, hmin, hwinst, hne⟩ := reconcile_shrink_inv h ht
    rw [hwi] at hwinst
    obtain rfl := Option.some.inj hwinst
    have halign : alignBytes (sumShareBytes shares)
        (gbToBytes inst.capacityStepSizeGb) ≤ inst.capacityBytes :=
      alignBytes_le hs hdvd (le_of_lt hlt)
    refine ⟨le_max_right _ _, max_le (le_trans halign hmax) (by decide), ?_⟩
    by_cases hge : minMultishareInstanceSizeBytes ≤
        alignBytes (sumShareBytes shares) (gbToBytes inst.capacityStepSizeGb)
    · rw [max_eq_left hge]
      exact Or.inl (dvd_alignBytes _ _)
    · rw [max_eq_right (le_of_not_le hge)]
      exact Or.inr rfl

/-- C4 witness: the spec's expand example (sum 900 GiB, request 200 GiB, step
256 GiB on a 1024 GiB instance) yields the target 1280 GiB, which is within
bounds and a multiple of the step. -/
theorem C4_alignment_bounds_amended_witness :
    minMultishareInstanceSizeBytes ≤ (1280 * 1073741824 : Int) ∧
    (1280 * 1073741824 : Int) ≤ maxMultishareInstanceSizeBytes ∧
    (gbToBytes 256 ∣ (1280 * 1073741824 : Int) ∨
      (1280 * 1073741824 : Int) = maxMultishareInstanceSizeBytes) :=
  C4_alignment_bounds_amended.1
    { name := "new", parent := some { project := "p", location := "l", name := "i", capacityBytes := 1024 * 1073741824, capacityStepSizeGb := 256 } }
    { project := "p", location := "l", name := "i", capacityBytes := 1024 * 1073741824, capacityStepSizeGb := 256 }
    [{ name := "s1", capacityBytes := 900 * 1073741824 }]
    (200 * 1073741824) (1280 * 1073741824)
    rfl (by decide) (by decide) rfl

/-- C4 counterexample: with step size 3 GiB, a request that clamps the expand
target to the 10 TiB bound produces a target that is not a multiple of the
step, refuting unconditional alignment. -/
theorem C4_alignment_bounds_counterexample :
    (instanceNeedsExpand
        { name := "new", parent := some { project := "p", location := "l", name := "i", capacityBytes := 1024 * 1073741824, capacityStepSizeGb := 3 } }
        (.ok []) (10240 * 1073741824) =
      .ok (true, 10240 * 1073741824)) ∧
    ¬(gbToBytes 3 ∣ (10240 * 1073741824 : Int)) :=
  ⟨rfl, by decide⟩

/-- C7 (amended): inside the delete-or-shrink reconcile every not-found
error — from get-instance, list-shares, or the dispatched delete/shrink
`Start*Op` — is consumed and the call returns a nil workflow with nil error;
`checkAndStartShareDeleteWorkflow` (the DeleteShare path), by contrast,
surfaces errors from its dispatch unchanged, not-found included. -/
theorem C7_notfound_swallowing_amended :
    (∀ (i : MultishareInstance) (ops : List OpInfo)
        (ls : Except GoError (List Share)) (cloud : StartOps) (e : GoError),
        verifyNoRunningInstanceOrShareOpsForInstance i ops = .ok () →
        isNotFoundErr e = true →
        checkAndStartInstanceDeleteOrShrinkWorkflow i (.ok ops) (.error e) ls cloud =
          (.ok none, false)) ∧
    (∀ (i : MultishareInstance) (ops : List OpInfo) (inst : MultishareInstance)
        (cloud : StartOps) (e : GoError),
        verifyNoRunningInstanceOrShareOpsForInstance i ops = .ok () →
        isNotFoundErr e = true →
        checkAndStartInstanceDeleteOrShrinkWorkflow i (.ok ops) (.ok inst)
          (.error e) cloud = (.ok none, false)) ∧
    (∀ (i : MultishareInstance) (ops : List OpInfo) (inst : MultishareInstance)
        (cloud : StartOps) (e : GoError),
        verifyNoRunningInstanceOrShareOpsForInstance i ops = .ok () →
        verifyNoRunningInstanceOrShareOpsForInstance inst ops = .ok () →
        cloud.startDeleteMultishareInstanceOp = .error e →
        isNotFoundErr e = true →
        checkAndStartInstanceDeleteOrShrinkWorkflow i (.ok ops) (.ok inst)
          (.ok []) cloud = (.ok none, true)) ∧
    (∀ (i : MultishareInstance) (ops : List OpInfo) (inst : MultishareInstance)
        (shares : List Share) (cloud : StartOps) (e : GoError),
        verifyNoRunningInstanceOrShareOpsForInstance i ops = .ok () →
        verifyNoRunningInstanceOrShareOpsForInstance inst ops = .ok () →
        shares.isEmpty = false →
        sumShareBytes shares < inst.capacityBytes →
        minMultishareInstanceSizeBytes < inst.capacityBytes →
        inst.capacityBytes ≠ max (alignBytes (sumShareBytes shares)
          (gbToBytes inst.capacityStepSizeGb)) minMultishareInstanceSizeBytes →
        cloud.startResizeMultishareInstanceOp = .error e →
        isNotFoundErr e = true →
        checkAndStartInstanceDeleteOrShrinkWorkflow i (.ok ops) (.ok inst)
          (.ok shares) cloud = (.ok none, true)) ∧
    (∀ (share : Share) (ops : List OpInfo) (cloud : StartOps)
        (p : MultishareInstance) (e : GoError),
        containsOpWithShareTarget share .shareDelete ops = .ok none →
        share.parent = some p →
        verifyNoRunningInstanceOps p ops = .ok () →
        verifyNoRunningShareOps share ops = .ok () →
        cloud.startDeleteShareOp = .error e →
        checkAndStartShareDeleteWorkflow share (.ok ops) cloud = (.error e, true)) := by
  refine ⟨?_, ?_, ?_, ?_, ?_⟩
  · intro i ops ls cloud e hv hnf
    simp [checkAndStartInstanceDeleteOrShrinkWorkflow, hv, hnf]
  · intro i ops inst cloud e hv hnf
    simp [checkAndStartInstanceDeleteOrShrinkWorkflow, hv, hnf]
  · intro i ops inst cloud e hv hvinst hc hnf
    simp [checkAndStartInstanceDeleteOrShrinkWorkflow, hv, startInstanceWorkflow,
      hvinst, hc, Except.map, hnf]
  · intro i ops inst shares cloud e hv hvinst hemp hlt hmin hne hc hnf
    have hvinst2 : verifyNoRunningInstanceOrShareOpsForInstance
        { inst with capacityBytes := max (alignBytes (sumShareBytes shares)
          (gbToBytes inst.capacityStepSizeGb)) minMultishareInstanceSizeBytes } ops =
        .ok () := hvinst
    simp [checkAndStartInstanceDeleteOrShrinkWorkflow, hv, hemp, hlt, hmin, hne,
      startInstanceWorkflow, hvinst2, hc, Except.map, hnf]
  · intro share ops cloud p e hfound hp hv1 hv2 hc
    simp [checkAndStartShareDeleteWorkflow, hfound, startShareWorkflow, hp,
      hv1, hv2, hc, Except.map]

/-- C7 witness: a not-found on get-instance inside the reconcile is consumed
to a nil workflow and nil error. -/
theorem C7_notfound_swallowing_amended_witness :
    checkAndStartInstanceDeleteOrShrinkWorkflow
        { project := "p", location := "l", name := "i" } (.ok [])
        (.error (.cloud true "instance not found")) (.ok []) {} =
      (.ok none, false) :=
  C7_notfound_swallowing_amended.1
    { project := "p", location := "l", name := "i" } [] (.ok []) {}
    (.cloud true "instance not found") rfl rfl

/-- C7 counterexample: on the DeleteShare path a not-found error from
`StartDeleteShareOp` is returned as an error rather than consumed to a nil
workflow with nil error, refuting the claim for that path. -/
theorem C7_notfound_swallowing_counterexample :
    ((checkAndStartShareDeleteWorkflow
        { name := "mine", parent := some { project := "p", location := "l", name := "i" } }
        (.ok [])
        { startDeleteShareOp := .error (.cloud true "share not found") }).1 =
      .error (.cloud true "share not found")) ∧
    (isNotFoundErr (.cloud true "share not found") = true) :=
  ⟨rfl, rfl⟩

/-- C6 (amended): during PlaceShare, a malformed topology yields
InvalidArgument, and so does a raw-CIDR reserved-ip-range parameter on the
PRIVATE_SERVICE_ACCESS new-instance path; an in-flight create for the same
share name yields Aborted; a cloud-client failure in the share-existence
scan is returned with its original error (not recoded); and any failure of
the eligibility check — including a cloud-client failure listing
instances — is wrapped as Aborted (not Internal). -/
theorem C6_placeshare_error_codes_amended :
    (∀ (env : SetupEnv) (shareName : String) (params : List (String × String))
        (top : Option (List String)) (i : MultishareInstance)
        (ops : List OpInfo) (op : OpInfo),
        env.listOpsRes = .ok ops →
        containsOpWithShareName shareName .shareCreate ops = some op →
        setupEligibleInstanceAndStartWorkflow env shareName params top i =
          (.error (.status .aborted ("Share create op " ++ op.id ++ " in progress")), false)) ∧
    (∀ (env : SetupEnv) (shareName : String) (params : List (String × String))
        (top : Option (List String)) (i : MultishareInstance)
        (ops : List OpInfo) (e : GoError),
        env.listOpsRes = .ok ops →
        containsOpWithShareName shareName .shareCreate ops = none →
        listRegions env.regionOf env.driverZone top = .error e →
        setupEligibleInstanceAndStartWorkflow env shareName params top i =
          (.error (.status .invalidArgument e.msg), false)) ∧
    (∀ (env : SetupEnv) (shareName : String) (params : List (String × String))
        (top : Option (List String)) (i : MultishareInstance)
        (ops : List OpInfo) (regions : List String) (e : GoError),
        env.listOpsRes = .ok ops →
        containsOpWithShareName shareName .shareCreate ops = none →
        listRegions env.regionOf env.driverZone top = .ok regions →
        findShareInRegions env.listSharesRegion shareName i.protocol regions = .error e →
        setupEligibleInstanceAndStartWorkflow env shareName params top i =
          (.error e, false)) ∧
    (∀ (env : SetupEnv) (shareName : String) (params : List (String × String))
        (top : Option (List String)) (i : MultishareInstance)
        (ops : List OpInfo) (regions : List String) (e : GoError),
        env.listOpsRes = .ok ops →
        containsOpWithShareName shareName .shareCreate ops = none →
        listRegions env.regionOf env.driverZone top = .ok regions →
        findShareInRegions env.listSharesRegion shareName i.protocol regions = .ok none →
        runEligibleInstanceCheck env.elg params ops i regions = .error e →
        setupEligibleInstanceAndStartWorkflow env shareName params top i =
          (.error (.status .aborted e.msg), false)) ∧
    (∀ (env : SetupEnv) (shareName : String) (params : List (String × String))
        (top : Option (List String)) (i : MultishareInstance)
        (ops : List OpInfo) (regions : List String) (r : String),
        env.listOpsRes = .ok ops →
        containsOpWithShareName shareName .shareCreate ops = none →
        listRegions env.regionOf env.driverZone top = .ok regions →
        findShareInRegions env.listSharesRegion shareName i.protocol regions = .ok none →
        runEligibleInstanceCheck env.elg params ops i regions = .ok [] →
        i.connectMode = privateServiceAccess →
        lookupLabel params paramReservedIPRange = some r →
        env.isCIDR r = true →
        setupEligibleInstanceAndStartWorkflow env shareName params top i =
          (.error (.status .invalidArgument "When using connect mode PRIVATE_SERVICE_ACCESS, if reserved IP range is specified, it must be a named address range instead of direct CIDR value"), false)) ∧
    (∀ (elg : ElgEnv) (params : List (String × String)) (ops : List OpInfo)
        (target : MultishareInstance) (regions : List String) (e : GoError),
        collectRegionalInstances elg.listInstancesRegion regions = .error e →
        runEligibleInstanceCheck elg params ops target regions = .error e) := by
  refine ⟨?_, ?_, ?_, ?_, ?_, ?_⟩
  · intro env shareName params top i ops op h1 h2
    simp [setupEligibleInstanceAndStartWorkflow, h1, h2]
  · intro env shareName params top i ops e h1 h2 h3
    simp [setupEligibleInstanceAndStartWorkflow, h1, h2, h3]
  · intro env shareName params top i ops regions e h1 h2 h3 h4
    simp [setupEligibleInstanceAndStartWorkflow, h1, h2, h3, h4]
  · intro env shareName params top i ops regions e h1 h2 h3 h4 h5
    simp [setupEligibleInstanceAndStartWorkflow, h1, h2, h3, h4, h5]
  · intro env shareName params top i ops regions r h1 h2 h3 h4 h5 h6 h7 h8
    simp [setupEligibleInstanceAndStartWorkflow, h1, h2, h3, h4, h5, h6, h7, h8]
  · intro elg params ops target regions e h1
    simp [runEligibleInstanceCheck, h1]

/-- C6 witness: an in-flight ShareCreate op for the requested name makes
PlaceShare abort, and a raw-CIDR reserved-ip-range on the
PRIVATE_SERVICE_ACCESS new-instance path makes it fail InvalidArgument, both
by applying the theorem at concrete environments. -/
theorem C6_placeshare_error_codes_amended_witness :
    (setupEligibleInstanceAndStartWorkflow
        { listOpsRes := .ok [{ id := "op-1", type := .shareCreate, target := "projects/p/locations/l/instances/i/shares/pvc-a" }] }
        "pvc-a" [] none { protocol := "NFS_V3" } =
      (.error (.status .aborted ("Share create op op-1 in progress")), false)) ∧
    (setupEligibleInstanceAndStartWorkflow { isCIDR := fun _ => true }
        "pvc-a" [(paramReservedIPRange, "10.0.0.0/24")] none
        { protocol := "NFS_V3", connectMode := "PRIVATE_SERVICE_ACCESS" } =
      (.error (.status .invalidArgument "When using connect mode PRIVATE_SERVICE_ACCESS, if reserved IP range is specified, it must be a named address range instead of direct CIDR value"), false)) :=
  ⟨C6_placeshare_error_codes_amended.1
    { listOpsRes := .ok [{ id := "op-1", type := .shareCreate, target := "projects/p/locations/l/instances/i/shares/pvc-a" }] }
    "pvc-a" [] none { protocol := "NFS_V3" }
    [{ id := "op-1", type := .shareCreate, target := "projects/p/locations/l/instances/i/shares/pvc-a" }]
    { id := "op-1", type := .shareCreate, target := "projects/p/locations/l/instances/i/shares/pvc-a" }
    rfl rfl,
   C6_placeshare_error_codes_amended.2.2.2.2.1 { isCIDR := fun _ => true }
    "pvc-a" [(paramReservedIPRange, "10.0.0.0/24")] none
    { protocol := "NFS_V3", connectMode := "PRIVATE_SERVICE_ACCESS" }
    [] [""] "10.0.0.0/24" rfl rfl rfl rfl rfl rfl rfl rfl⟩

/-- C6 counterexample: a cloud-client failure listing instances during the
eligibility search surfaces as an Aborted-coded error, not Internal,
refuting the claimed error taxonomy for cloud failures in PlaceShare. -/
theorem C6_placeshare_error_codes_counterexample :
    (resultCode (setupEligibleInstanceAndStartWorkflow
        { regionOf := fun _ => .ok "us-central1",
          elg := { listInstancesRegion := fun _ => .error (.cloud false "connection reset") } }
        "pvc-a" [] none { protocol := "NFS_V3" }).1 = some .aborted) ∧
    Code.aborted ≠ Code.internal :=
  ⟨rfl, by decide⟩

theorem sumShareBytes_eq (shares : List Share) :
    sumShareBytes shares = (shares.map (fun s => s.capacityBytes)).sum := by
  rw [List.sum_eq_foldl, List.foldl_map]
  rfl

/-- C5: `instanceNeedsExpand` reports no expansion exactly when the
instance's capacity minus the sum of the existing shares' capacities covers
the needed bytes; otherwise it reports expansion with target
`min(alignUp(needed + Σ share capacity, step), MaxInstanceSize)`. -/
theorem C5_instanceNeedsExpand_characterization :
    ∀ (sh : Share) (parent : MultishareInstance) (shares : List Share)
      (needed : Int),
      sh.parent = some parent →
      ((instanceNeedsExpand sh (.ok shares) needed = .ok (false, 0) ↔
          needed ≤ parent.capacityBytes -
            (shares.map (fun s => s.capacityBytes)).sum) ∧
        (parent.capacityBytes - (shares.map (fun s => s.capacityBytes)).sum <
            needed →
          instanceNeedsExpand sh (.ok shares) needed =
            .ok (true, min (alignBytes
                (needed + (shares.map (fun s => s.capacityBytes)).sum)
                (gbToBytes parent.capacityStepSizeGb))
              maxMultishareInstanceSizeBytes))) := by
  intro sh parent shares needed hp
  have hsum : sumShareBytes shares = (shares.map (fun s => s.capacityBytes)).sum :=
    sumShareBytes_eq shares
  by_cases hlt : parent.capacityBytes - sumShareBytes shares < needed
  · refine ⟨⟨?_, ?_⟩, ?_⟩
    · intro h
      simp [instanceNeedsExpand, hp, hlt] at h
    · intro hle
      exfalso
      rw [← hsum] at hle
      omega
    · intro _
      rw [← hsum]
      simp only [instanceNeedsExpand, hp, if_pos hlt]
  · refine ⟨⟨?_, ?_⟩, ?_⟩
    · intro _
      rw [← hsum]
      omega
    · intro _
      simp [instanceNeedsExpand, hp, hlt]
    · intro hlt2
      exfalso
      rw [← hsum] at hlt2
      omega

/-- C5 witness: the spec's worked example — 900 GiB of shares on a 1024 GiB
instance with a 256 GiB step and a 200 GiB request — expands to 1280 GiB. -/
theorem C5_instanceNeedsExpand_characterization_witness :
    (instanceNeedsExpand
        { name := "new", parent := some { project := "p", location := "l", name := "i", capacityBytes := 1024 * 1073741824, capacityStepSizeGb := 256 } }
        (.ok [{ name := "s1", capacityBytes := 900 * 1073741824 }])
        (200 * 1073741824) =
      .ok (true, min (alignBytes
          ((200 * 1073741824) +
            ([{ name := "s1", capacityBytes := 900 * 1073741824 : Share }].map
              (fun s => s.capacityBytes)).sum)
          (gbToBytes ({ project := "p", location := "l", name := "i", capacityBytes := 1024 * 1073741824, capacityStepSizeGb := 256 : MultishareInstance }).capacityStepSizeGb))
        maxMultishareInstanceSizeBytes)) ∧
    min (alignBytes ((200 * 1073741824) + 900 * 1073741824) (gbToBytes 256))
        maxMultishareInstanceSizeBytes = 1280 * 1073741824 :=
  ⟨(C5_instanceNeedsExpand_characterization
      { name := "new", parent := some { project := "p", location := "l", name := "i", capacityBytes := 1024 * 1073741824, capacityStepSizeGb := 256 } }
      { project := "p", location := "l", name := "i", capacityBytes := 1024 * 1073741824, capacityStepSizeGb := 256 }
      [{ name := "s1", capacityBytes := 900 * 1073741824 }]
      (200 * 1073741824) rfl).2 (by decide), by decide⟩

end FilestoreMultishare
